import Mathlib

set_option maxRecDepth 10000

/-!
Shallow embedding of the x402 facilitator's verification-and-settlement core
(services/verifier.ts, services/settler.ts, services/relayer_manager.ts,
domain/network.ts parseSimulationResult, storage/json.ts), with theorems
settling the specification claims.

Machine integers of the source are arbitrary-precision (`BigInt`) or small
non-negative counters, so they are modelled as `Nat`.  SDK cryptographic
primitives (signature verification, sha256 identifiers, bech32/hex address
codecs) are black boxes per the spec and appear as abstract function or
boolean fields of explicit environment records.
-/

namespace X402

/-! ## Hex helpers: `BigInt('0x'+s)` and `Buffer.from(s,'hex').toString()` -/

def hexDigitVal (c : Char) : Option Nat :=
  if 48 ≤ c.toNat ∧ c.toNat ≤ 57 then some (c.toNat - 48)
  else if 97 ≤ c.toNat ∧ c.toNat ≤ 102 then some (c.toNat - 87)
  else if 65 ≤ c.toNat ∧ c.toNat ≤ 70 then some (c.toNat - 55)
  else none

def hexToNatCore : List Char → Nat → Option Nat
  | [], acc => some acc
  | c :: cs, acc =>
    match hexDigitVal c with
    | some v => hexToNatCore cs (acc * 16 + v)
    | none => none

/-- Model of `BigInt('0x' ++ s)`: `none` when `s` is empty or has a non-hex digit
(the `BigInt` constructor throws a `SyntaxError` there). -/
def hexToNat (s : String) : Option Nat :=
  if s.isEmpty then none else hexToNatCore s.data 0

/-- Model of `Buffer.from(s, 'hex')`: decodes two hex digits per byte, stopping at the
first invalid or incomplete pair (Node truncates instead of throwing). -/
def hexBytes : List Char → List Nat
  | c1 :: c2 :: rest =>
    match hexDigitVal c1, hexDigitVal c2 with
    | some v1, some v2 => (v1 * 16 + v2) :: hexBytes rest
    | _, _ => []
  | _ => []

/-- Model of `buffer.toString()` (utf8), modelled for single-byte (ASCII) content,
which is what token identifiers are. -/
def bytesToString (bs : List Nat) : String :=
  String.mk (bs.map Char.ofNat)

def hexToString (s : String) : String :=
  bytesToString (hexBytes s.data)

/-- List-level check that `pre` begins the list (structural, so that proofs
can evaluate it; `String.startsWith` itself is opaque to the kernel). -/
def isPre : List Char → List Char → Bool
  | [], _ => true
  | _ :: _, [] => false
  | c :: cs, d :: ds => c = d && isPre cs ds

/-- JavaScript `s.startsWith(pre)`. -/
def startsWithStr (s pre : String) : Bool :=
  isPre pre.data s.data

def splitChar (sep : Char) : List Char → List (List Char)
  | [] => [[]]
  | c :: cs =>
    let rest := splitChar sep cs
    if c = sep then [] :: rest
    else ((c :: rest.headD []) :: rest.tail)

/-- JavaScript `s.split(sep)` for a one-character separator (structural, so
that proofs can evaluate it; `String.splitOn` itself is opaque to the
kernel). -/
def jsSplit (s : String) (sep : Char) : List String :=
  (splitChar sep s.data).map String.mk

/-! ## Simulation responses (`domain/network.ts`)

Structural model of the JSON shapes `parseSimulationResult` inspects: it only
ever reads the field paths below, so a response is modelled by exactly those
fields, each optional. -/

structure SimStatusObj where
  status : Option String := none
deriving DecidableEq

structure SimExecution where
  result : Option String := none
  message : Option String := none
deriving DecidableEq

structure SimRaw where
  status : Option String := none
  receiverShard : Option SimStatusObj := none
  senderShard : Option SimStatusObj := none
  error : Option String := none
deriving DecidableEq

structure SimResult where
  status : Option String := none
  receiverShard : Option SimStatusObj := none
  senderShard : Option SimStatusObj := none
  execution : Option SimExecution := none
  error : Option String := none
deriving DecidableEq

structure SimResponse where
  status : Option SimStatusObj := none
  raw : Option SimRaw := none
  result : Option SimResult := none
  execution : Option SimExecution := none
  error : Option String := none
deriving DecidableEq

/-- JavaScript `a || b` on optional strings: an empty string is falsy. -/
def jsOrStr : Option String → Option String → Option String
  | some s, t => if s = "" then t else some s
  | none, t => t

/-- JavaScript `!x` on an optional string: absent or empty is falsy. -/
def jsFalsyStr : Option String → Bool
  | none => true
  | some s => s == ""

structure SimOutcome where
  success : Bool
  errorMessage : String
deriving DecidableEq

instance {ε α : Type} [DecidableEq ε] [DecidableEq α] : DecidableEq (Except ε α) := fun a b =>
  match a, b with
  | Except.ok x, Except.ok y =>
    if h : x = y then isTrue (by rw [h]) else isFalse (fun hc => by cases hc; exact h rfl)
  | Except.error x, Except.error y =>
    if h : x = y then isTrue (by rw [h]) else isFalse (fun hc => by cases hc; exact h rfl)
  | Except.ok _, Except.error _ => isFalse (fun hc => by cases hc)
  | Except.error _, Except.ok _ => isFalse (fun hc => by cases hc)

/-- Function `parseSimulationResult` from `src/domain/network.ts` (the null-input guard
is outside the model: a structure value is never null). -/
def parseSimulationResult (result : SimResponse) : SimOutcome :=
  let statusFromStatus := result.status.bind SimStatusObj.status
  if statusFromStatus == some ("success") then { success := true, errorMessage := "" }
  else
    let statusFromRaw := result.raw.bind SimRaw.status
    if statusFromRaw == some ("success") then { success := true, errorMessage := "" }
    else
      let execution := result.execution <|> (result.result.bind SimResult.execution)
      if execution.bind SimExecution.result == some ("success") then
        { success := true, errorMessage := "" }
      else
        let rawReceiverShard := (result.raw.bind SimRaw.receiverShard).bind SimStatusObj.status
        let rawSenderShard := (result.raw.bind SimRaw.senderShard).bind SimStatusObj.status
        if rawReceiverShard == some ("success")
            && (jsFalsyStr rawSenderShard || rawSenderShard == some ("success")) then
          { success := true, errorMessage := "" }
        else
          let statusFromResult := result.result.bind SimResult.status
          if statusFromResult == some ("success") then { success := true, errorMessage := "" }
          else
            let resultReceiverShard := (result.result.bind SimResult.receiverShard).bind SimStatusObj.status
            let resultSenderShard := (result.result.bind SimResult.senderShard).bind SimStatusObj.status
            if resultReceiverShard == some ("success")
                && (jsFalsyStr resultSenderShard || resultSenderShard == some ("success")) then
              { success := true, errorMessage := "" }
            else
              let errorMessage :=
                jsOrStr (execution.bind SimExecution.message)
                  (jsOrStr result.error
                    (jsOrStr (result.raw.bind SimRaw.error)
                      (jsOrStr (result.result.bind SimResult.error)
                        (jsOrStr statusFromStatus
                          (jsOrStr statusFromRaw (some ("Unknown error")))))))
              { success := false, errorMessage := errorMessage.getD ("Unknown error") }

/-! ## Data model (`domain/types.ts`) -/

structure X402Payload where
  nonce : Nat
  value : Nat
  receiver : String
  sender : String
  gasPrice : Nat
  gasLimit : Nat
  data : Option String := none
  chainID : String
  version : Nat
  options : Nat
  signature : String
  relayer : Option String := none
  validAfter : Option Nat := none
  validBefore : Option Nat := none
deriving DecidableEq

structure X402Requirements where
  payTo : String
  amount : Nat
  asset : String
  network : String
deriving DecidableEq

/-! ## Verifier (`services/verifier.ts`)

Every validation gate in the source throws an `Error` with a fixed message;
the thrown messages are modelled as constructors of `VerifyError`. -/

inductive VerifyError where
  | notYetValid          -- 'Transaction not yet valid'
  | expired              -- 'Transaction expired'
  | invalidSignature     -- 'Invalid signature'
  | receiverMismatch     -- 'Receiver mismatch'
  | insufficientAmount   -- 'Insufficient amount'
  | notESDT              -- 'Not an ESDT transfer'
  | malformedESDT        -- 'Invalid MultiESDTNFTTransfer data'
  | esdtReceiverMismatch -- 'ESDT receiver mismatch'
  | esdtTokenMismatch    -- 'ESDT token mismatch'
  | insufficientESDT     -- 'Insufficient ESDT amount'
  | sdkError (msg : String)         -- exception escaping an SDK primitive
  | simulationFailed (msg : String) -- 'Simulation error: ...'
deriving DecidableEq

structure VerifyOk where
  isValid : Bool
  payer : String
deriving DecidableEq

/-- Environment of one `Verifier.verify` call: the wall clock, the outcome of
the black-box SDK signature check for this payload, the black-box address
codec (`new Address(hex).toBech32()`, `none` when the constructor throws) and,
when a provider is passed, the outcome of `provider.simulateTransaction`. -/
structure VerifyEnv where
  now : Nat
  sigValid : Bool
  addrFromHex : String → Option String
  simulation : Option (Except String SimResponse) := none

/-- JavaScript truthiness of an optional numeric field: present and nonzero. -/
def jsTruthyNat : Option Nat → Bool
  | none => false
  | some v => v != 0

/-- Step 1 of `verify`: `if (payload.validAfter && now < payload.validAfter)`
and the symmetric `validBefore` check. -/
def timeGate (now : Nat) (p : X402Payload) : Except VerifyError Unit :=
  if jsTruthyNat p.validAfter && decide (now < p.validAfter.getD 0) then
    Except.error VerifyError.notYetValid
  else if jsTruthyNat p.validBefore && decide (p.validBefore.getD 0 < now) then
    Except.error VerifyError.expired
  else Except.ok ()

def esdtOpcode : String := "MultiESDTNFTTransfer"

/-- Check `payload.data?.startsWith('MultiESDTNFTTransfer')` coerced to boolean. -/
def isEsdtData : Option String → Bool
  | none => false
  | some d => startsWithStr d esdtOpcode

/-- Method `Verifier.verifyESDT`. -/
def verifyESDT (env : VerifyEnv) (p : X402Payload) (req : X402Requirements) :
    Except VerifyError Unit :=
  if !isEsdtData p.data then Except.error VerifyError.notESDT
  else
    let parts := jsSplit (p.data.getD ("")) ('@')
    if parts.length < 6 then Except.error VerifyError.malformedESDT
    else
      let receiverHex := parts.getD 1 ("")
      let tokenHex := parts.getD 3 ("")
      let amountHex := parts.getD 5 ("")
      match env.addrFromHex receiverHex with
      | none => Except.error (VerifyError.sdkError ("invalid address hex"))
      | some actualReceiver =>
        let actualToken := hexToString tokenHex
        match hexToNat amountHex with
        | none => Except.error (VerifyError.sdkError ("invalid amount hex"))
        | some actualAmount =>
          if actualReceiver ≠ req.payTo then Except.error VerifyError.esdtReceiverMismatch
          else if actualToken ≠ req.asset then Except.error VerifyError.esdtTokenMismatch
          else if actualAmount < req.amount then Except.error VerifyError.insufficientESDT
          else Except.ok ()

/-- Method `Verifier.simulate`: normalizes the response
(`status.status || raw.status || (execution || result.execution).result`) and
fails unless that is the literal success marker; the surrounding catch block
rewraps every failure message. -/
def simulateGate (sim : Except String SimResponse) : Except VerifyError Unit :=
  match sim with
  | Except.error e => Except.error (VerifyError.simulationFailed ("Simulation error: " ++ e))
  | Except.ok r =>
    let statusFromStatus := r.status.bind SimStatusObj.status
    let statusFromRaw := r.raw.bind SimRaw.status
    let execution := r.execution <|> (r.result.bind SimResult.execution)
    let resultStatus := jsOrStr statusFromStatus (jsOrStr statusFromRaw (execution.bind SimExecution.result))
    if resultStatus ≠ some ("success") then
      let message :=
        (jsOrStr (execution.bind SimExecution.message)
          (jsOrStr r.error (some ("Unknown error")))).getD ("Unknown error")
      Except.error (VerifyError.simulationFailed ("Simulation error: Simulation failed: " ++ message))
    else Except.ok ()

/-- Method `Verifier.verify` after the temporal gate: signature check, receiver and
requirement match, optional simulation. -/
def verifyFromSignature (env : VerifyEnv) (p : X402Payload) (req : X402Requirements) :
    Except VerifyError VerifyOk :=
  if !env.sigValid then Except.error VerifyError.invalidSignature
  else
    let isEsdt := isEsdtData p.data
    if !isEsdt && decide (p.receiver ≠ req.payTo) then Except.error VerifyError.receiverMismatch
    else
      match (if req.asset = "EGLD" then
               (if p.value < req.amount then Except.error VerifyError.insufficientAmount
                else Except.ok ())
             else verifyESDT env p req) with
      | Except.error e => Except.error e
      | Except.ok _ =>
        match env.simulation with
        | none => Except.ok { isValid := true, payer := p.sender }
        | some sim =>
          match simulateGate sim with
          | Except.error e => Except.error e
          | Except.ok _ => Except.ok { isValid := true, payer := p.sender }

/-- Method `Verifier.verify`. -/
def verify (env : VerifyEnv) (p : X402Payload) (req : X402Requirements) :
    Except VerifyError VerifyOk :=
  match timeGate env.now p with
  | Except.error e => Except.error e
  | Except.ok _ => verifyFromSignature env p req

/-! ## Settlement store (`domain/storage.ts`, `storage/json.ts`)

`settle` is modelled as returning the ordered list of storage calls it makes
(`save` / `updateStatus`); `applyOps` gives them the `JsonSettlementStorage`
semantics (a map keyed by id: `save` upserts, `updateStatus` mutates the
status and transaction-hash fields of an existing record). -/

inductive SettlementStatus where
  | pending
  | completed
  | failed
deriving DecidableEq

structure SettlementRecord where
  id : String
  signature : String
  payer : String
  status : SettlementStatus
  txHash : Option String := none
  validBefore : Option Nat := none
  createdAt : Nat
  amount : Nat
  token : String
  jobId : Option String := none
deriving DecidableEq

inductive StoreOp where
  | save (r : SettlementRecord)
  | updateStatus (id : String) (status : SettlementStatus) (txHash : Option String)
deriving DecidableEq

abbrev Store := String → Option SettlementRecord

def applyOp (s : Store) : StoreOp → Store
  | StoreOp.save r => fun i => if i = r.id then some r else s i
  | StoreOp.updateStatus id st tx => fun i =>
      if i = id then (s i).map (fun r => { r with status := st, txHash := tx }) else s i

def applyOps (s : Store) (ops : List StoreOp) : Store :=
  ops.foldl applyOp s

/-! ## Settler (`services/settler.ts`) -/

/-- Method `Settler.extractJobId`. -/
def extractJobId : Option String → Option String
  | none => none
  | some d =>
    let parts := jsSplit d ('@')
    if parts.length ≥ 2
        && ((parts.getD 0 ("")) == "init_job_with_payment" || (parts.getD 0 ("")) == "init_job")
    then some (hexToString (parts.getD 1 ("")))
    else none

/-- Environment of one `Settler.settle` call: the sha256 identifier derivation
(crypto black box, a function of the signature), the wall clock, whether a
relayer manager was injected, the outcome of `getSignerForUser(sender)` (the
resolved relayer's bech32 address, or the thrown message), the outcome of the
relayer co-signing call, the `SKIP_SIMULATION` override, and the outcomes of
the provider's `simulateTransaction` and `sendTransaction` calls. -/
structure SettleEnv where
  calcId : String → String
  now : Nat
  relayerConfigured : Bool
  resolveRelayer : Except String String
  signOutcome : Except String Unit := Except.ok ()
  skipSimulation : Bool := false
  simOutcome : Except String SimResponse := Except.error ("no simulation outcome")
  sendOutcome : Except String String

/-- Method `Settler.sendDirect`: one `provider.sendTransaction` call.  The second
component counts broadcast (`sendTransaction`) invocations. -/
def sendDirect (env : SettleEnv) : Except String String × Nat :=
  (env.sendOutcome, 1)

/-- Method `Settler.sendRelayedV3`. -/
def sendRelayedV3 (env : SettleEnv) (p : X402Payload) : Except String String × Nat :=
  if !env.relayerConfigured then (Except.error ("Relayer manager not configured"), 0)
  else
    match p.relayer with
    | none =>
      (Except.error ("Relayed V3 requires payload.relayer to be set by the sender before signing."), 0)
    | some rel =>
      if p.version < 2 then
        (Except.error ("Relayed V3 requires transaction version >= 2."), 0)
      else
        match env.resolveRelayer with
        | Except.error e => (Except.error e, 0)
        | Except.ok expected =>
          if rel ≠ expected then
            (Except.error ("Invalid relayer address. Expected " ++ expected ++ " for sender's shard."), 0)
          else
            match env.signOutcome with
            | Except.error e => (Except.error e, 0)
            | Except.ok _ =>
              if !env.skipSimulation then
                match env.simOutcome with
                | Except.error e => (Except.error e, 0)
                | Except.ok resp =>
                  let pr := parseSimulationResult resp
                  if !pr.success then
                    (Except.error ("On-chain simulation failed: " ++ pr.errorMessage), 0)
                  else (env.sendOutcome, 1)
              else (env.sendOutcome, 1)

structure SettleOk where
  success : Bool
  txHash : Option String := none
deriving DecidableEq

structure SettleResult where
  result : Except String SettleOk
  ops : List StoreOp
  sends : Nat
deriving DecidableEq

/-- The `pending` record `settle` saves before broadcasting. -/
def pendingRecord (env : SettleEnv) (p : X402Payload) : SettlementRecord :=
  { id := env.calcId p.signature
    signature := p.signature
    payer := p.sender
    status := SettlementStatus.pending
    txHash := none
    validBefore := p.validBefore
    createdAt := env.now
    amount := p.value
    token := "EGLD"
    jobId := extractJobId p.data }

/-- The broadcast phase of `settle` (steps 2-3 and the catch block): save the
pending record, choose relayed vs direct, then mark `completed` with the hash
or mark `failed` and rethrow a wrapped `Settlement failed` error. -/
def settleBroadcast (env : SettleEnv) (p : X402Payload) : SettleResult :=
  let id := env.calcId p.signature
  let pendRec := pendingRecord env p
  let path :=
    if env.relayerConfigured && p.relayer.isSome then sendRelayedV3 env p else sendDirect env
  match path.1 with
  | Except.ok h =>
    { result := Except.ok { success := true, txHash := some h }
      ops := [StoreOp.save pendRec, StoreOp.updateStatus id SettlementStatus.completed (some h)]
      sends := path.2 }
  | Except.error e =>
    { result := Except.error ("Settlement failed: " ++ e)
      ops := [StoreOp.save pendRec, StoreOp.updateStatus id SettlementStatus.failed none]
      sends := path.2 }

/-- Method `Settler.settle`. -/
def settle (env : SettleEnv) (p : X402Payload) (store : Store) : SettleResult :=
  let id := env.calcId p.signature
  match store id with
  | some r =>
    if r.status = SettlementStatus.completed then
      { result := Except.ok { success := true, txHash := r.txHash }, ops := [], sends := 0 }
    else if r.status = SettlementStatus.pending then
      { result := Except.error ("Settlement already in progress"), ops := [], sends := 0 }
    else settleBroadcast env p
  | none => settleBroadcast env p

/-! ## Relayer manager (`services/relayer_manager.ts`)

Signing identities are identified by their bech32 address; an address's
public key enters only through its last byte (`pubKey[31]`), which is the
only part `getShard` reads. -/

structure UserAddr where
  bech32 : String
  pubKeyLast : Nat
deriving DecidableEq

/-- Method `RelayerManager.getShard`. -/
def getShard (lastByte : Nat) : Nat :=
  let shard := lastByte &&& 3
  if shard > 2 then lastByte &&& 1 else shard

structure RelayerManager where
  signers : List (Nat × String)
  singleSigner : Option String := none
deriving DecidableEq

/-- Lookup `Map.get` on the shard-keyed signer map. -/
def lookupShard : List (Nat × String) → Nat → Option String
  | [], _ => none
  | (k, v) :: rest, shard => if k = shard then some v else lookupShard rest shard

/-- Method `RelayerManager.getSignerForUser`. -/
def getSignerForUser (m : RelayerManager) (user : UserAddr) : Except String String :=
  let fromShard :=
    if m.signers.length > 0 then lookupShard m.signers (getShard user.pubKeyLast) else none
  match fromShard with
  | some s => Except.ok s
  | none =>
    match m.singleSigner with
    | some s => Except.ok s
    | none => Except.error ("No relayer configured for user " ++ user.bech32)

/-! ## Helper lemmas on `settle` -/

theorem settle_of_completed (env : SettleEnv) (p : X402Payload) (store : Store)
    (r : SettlementRecord) (hget : store (env.calcId p.signature) = some r)
    (hc : r.status = SettlementStatus.completed) :
    settle env p store =
      { result := Except.ok { success := true, txHash := r.txHash }, ops := [], sends := 0 } := by
  simp [settle, hget, hc]

theorem settle_of_pending (env : SettleEnv) (p : X402Payload) (store : Store)
    (r : SettlementRecord) (hget : store (env.calcId p.signature) = some r)
    (hp : r.status = SettlementStatus.pending) :
    settle env p store =
      { result := Except.error ("Settlement already in progress"), ops := [], sends := 0 } := by
  simp [settle, hget, hp]

theorem settle_of_none (env : SettleEnv) (p : X402Payload) (store : Store)
    (hget : store (env.calcId p.signature) = none) :
    settle env p store = settleBroadcast env p := by
  simp [settle, hget]

theorem settle_of_failed (env : SettleEnv) (p : X402Payload) (store : Store)
    (r : SettlementRecord) (hget : store (env.calcId p.signature) = some r)
    (hf : r.status = SettlementStatus.failed) :
    settle env p store = settleBroadcast env p := by
  simp [settle, hget, hf]

theorem settleBroadcast_of_ok (env : SettleEnv) (p : X402Payload) (h : String)
    (hpath : (if env.relayerConfigured && p.relayer.isSome then sendRelayedV3 env p
              else sendDirect env).1 = Except.ok h) :
    settleBroadcast env p =
      { result := Except.ok { success := true, txHash := some h }
        ops := [StoreOp.save (pendingRecord env p),
                StoreOp.updateStatus (env.calcId p.signature) SettlementStatus.completed (some h)]
        sends := (if env.relayerConfigured && p.relayer.isSome then sendRelayedV3 env p
                  else sendDirect env).2 } := by
  rcases hpe : (if env.relayerConfigured && p.relayer.isSome then sendRelayedV3 env p
                else sendDirect env) with ⟨res, n⟩
  rw [hpe] at hpath
  simp only at hpath
  subst hpath
  unfold settleBroadcast
  rw [hpe]

theorem settleBroadcast_of_error (env : SettleEnv) (p : X402Payload) (e : String)
    (hpath : (if env.relayerConfigured && p.relayer.isSome then sendRelayedV3 env p
              else sendDirect env).1 = Except.error e) :
    settleBroadcast env p =
      { result := Except.error ("Settlement failed: " ++ e)
        ops := [StoreOp.save (pendingRecord env p),
                StoreOp.updateStatus (env.calcId p.signature) SettlementStatus.failed none]
        sends := (if env.relayerConfigured && p.relayer.isSome then sendRelayedV3 env p
                  else sendDirect env).2 } := by
  rcases hpe : (if env.relayerConfigured && p.relayer.isSome then sendRelayedV3 env p
                else sendDirect env) with ⟨res, n⟩
  rw [hpe] at hpath
  simp only at hpath
  subst hpath
  unfold settleBroadcast
  rw [hpe]

theorem applyOps_pending_then_completed (env : SettleEnv) (p : X402Payload) (store : Store)
    (h : String) :
    applyOps store
        [StoreOp.save (pendingRecord env p),
         StoreOp.updateStatus (env.calcId p.signature) SettlementStatus.completed (some h)]
        (env.calcId p.signature)
      = some { pendingRecord env p with
                status := SettlementStatus.completed, txHash := some h } := by
  simp [applyOps, applyOp, pendingRecord]

theorem applyOps_pending_then_failed (env : SettleEnv) (p : X402Payload) (store : Store) :
    applyOps store
        [StoreOp.save (pendingRecord env p),
         StoreOp.updateStatus (env.calcId p.signature) SettlementStatus.failed none]
        (env.calcId p.signature)
      = some { pendingRecord env p with status := SettlementStatus.failed, txHash := none } := by
  simp [applyOps, applyOp, pendingRecord]

/-- The settle state of a broadcast attempt whose chosen path throws:
wrapped error, pending save followed by the failed transition, and a `failed`
final status for the identifier. -/
theorem settle_path_error_state (env : SettleEnv) (p : X402Payload) (store : Store) (e : String)
    (hfresh : ∀ r, store (env.calcId p.signature) = some r → r.status = SettlementStatus.failed)
    (hpath : (if env.relayerConfigured && p.relayer.isSome then sendRelayedV3 env p
              else sendDirect env).1 = Except.error e) :
    (settle env p store).result = Except.error ("Settlement failed: " ++ e)
    ∧ (settle env p store).ops
        = [StoreOp.save (pendingRecord env p),
           StoreOp.updateStatus (env.calcId p.signature) SettlementStatus.failed none]
    ∧ (settle env p store).sends
        = (if env.relayerConfigured && p.relayer.isSome then sendRelayedV3 env p
           else sendDirect env).2
    ∧ ((applyOps store (settle env p store).ops) (env.calcId p.signature)).map
        SettlementRecord.status = some SettlementStatus.failed := by
  have hb : settle env p store = settleBroadcast env p := by
    cases hs : store (env.calcId p.signature) with
    | none => exact settle_of_none env p store hs
    | some r => exact settle_of_failed env p store r hs (hfresh r hs)
  rw [hb, settleBroadcast_of_error env p e hpath]
  refine ⟨rfl, rfl, rfl, ?_⟩
  rw [applyOps_pending_then_failed env p store]
  rfl

/-! ## C1 and C2 -/

/-- C1: when the settlement identifier already has a `completed` record,
`settle` returns success with the stored transaction hash, performs no store
write and no broadcast; consequently a second `settle` call with the same
signed intent, run on the store a successful call left behind, returns the
same transaction hash without broadcasting. -/
theorem settle_completed_idempotent (env : SettleEnv) (p : X402Payload) (store : Store)
    (r : SettlementRecord)
    (hget : store (env.calcId p.signature) = some r)
    (hc : r.status = SettlementStatus.completed) :
    ((settle env p store).result = Except.ok { success := true, txHash := r.txHash }
      ∧ (settle env p store).sends = 0 ∧ (settle env p store).ops = [])
    ∧ ∀ (env2 : SettleEnv) (p2 : X402Payload) (store2 : Store) (h : String),
        (settle env2 p2 store2).result = Except.ok { success := true, txHash := some h } →
        (settle env2 p2 (applyOps store2 (settle env2 p2 store2).ops)).result
            = Except.ok { success := true, txHash := some h }
        ∧ (settle env2 p2 (applyOps store2 (settle env2 p2 store2).ops)).sends = 0 := by
  constructor
  · rw [settle_of_completed env p store r hget hc]
    exact ⟨rfl, rfl, rfl⟩
  · intro env2 p2 store2 h hok
    cases hs : store2 (env2.calcId p2.signature) with
    | some r2 =>
      cases hst2 : r2.status with
      | completed =>
        rw [settle_of_completed env2 p2 store2 r2 hs hst2] at hok ⊢
        simp only [applyOps, List.foldl_nil]
        rw [settle_of_completed env2 p2 store2 r2 hs hst2]
        simp only [Except.ok.injEq, SettleOk.mk.injEq, true_and] at hok
        simp [hok]
      | pending =>
        rw [settle_of_pending env2 p2 store2 r2 hs hst2] at hok
        exact absurd hok (by simp)
      | failed =>
        have hb : settle env2 p2 store2 = settleBroadcast env2 p2 :=
          settle_of_failed env2 p2 store2 r2 hs hst2
        cases hpath : (if env2.relayerConfigured && p2.relayer.isSome then sendRelayedV3 env2 p2
                       else sendDirect env2).1 with
        | error e =>
          rw [hb, settleBroadcast_of_error env2 p2 e hpath] at hok
          exact absurd hok (by simp)
        | ok h0 =>
          rw [hb, settleBroadcast_of_ok env2 p2 h0 hpath] at hok ⊢
          simp only [Except.ok.injEq, SettleOk.mk.injEq, true_and, Option.some.injEq] at hok
          subst hok
          have hrec := applyOps_pending_then_completed env2 p2 store2 h0
          rw [settle_of_completed env2 p2 _ _ hrec rfl]
          exact ⟨rfl, rfl⟩
    | none =>
      have hb : settle env2 p2 store2 = settleBroadcast env2 p2 :=
        settle_of_none env2 p2 store2 hs
      cases hpath : (if env2.relayerConfigured && p2.relayer.isSome then sendRelayedV3 env2 p2
                     else sendDirect env2).1 with
      | error e =>
        rw [hb, settleBroadcast_of_error env2 p2 e hpath] at hok
        exact absurd hok (by simp)
      | ok h0 =>
        rw [hb, settleBroadcast_of_ok env2 p2 h0 hpath] at hok ⊢
        simp only [Except.ok.injEq, SettleOk.mk.injEq, true_and, Option.some.injEq] at hok
        subst hok
        have hrec := applyOps_pending_then_completed env2 p2 store2 h0
        rw [settle_of_completed env2 p2 _ _ hrec rfl]
        exact ⟨rfl, rfl⟩

/-- C2: when the settlement identifier has a `pending` record, `settle`
rejects with the in-progress error, broadcasts nothing and writes nothing. -/
theorem settle_pending_rejected (env : SettleEnv) (p : X402Payload) (store : Store)
    (r : SettlementRecord)
    (hget : store (env.calcId p.signature) = some r)
    (hp : r.status = SettlementStatus.pending) :
    (settle env p store).result = Except.error ("Settlement already in progress")
    ∧ (settle env p store).ops = []
    ∧ (settle env p store).sends = 0 := by
  rw [settle_of_pending env p store r hget hp]
  exact ⟨rfl, rfl, rfl⟩

/-! ## C3, C8 and C4 -/

/-- C3: in an invocation that writes a `pending` record (no `completed` or
`pending` record pre-exists), any exception from the chosen broadcast path —
relayed or direct, whatever the underlying cause — makes `settle` transition
the record to `failed` (the pending save followed by the failed update) and
surface a wrapped `Settlement failed` error; the identifier's final status is
`failed`, never `pending`. -/
theorem settle_error_marks_failed (env : SettleEnv) (p : X402Payload) (store : Store) (e : String)
    (hfresh : ∀ r, store (env.calcId p.signature) = some r → r.status = SettlementStatus.failed)
    (hpath : (if env.relayerConfigured && p.relayer.isSome then sendRelayedV3 env p
              else sendDirect env).1 = Except.error e) :
    (settle env p store).result = Except.error ("Settlement failed: " ++ e)
    ∧ (settle env p store).ops
        = [StoreOp.save (pendingRecord env p),
           StoreOp.updateStatus (env.calcId p.signature) SettlementStatus.failed none]
    ∧ ((applyOps store (settle env p store).ops) (env.calcId p.signature)).map
        SettlementRecord.status = some SettlementStatus.failed := by
  obtain ⟨h1, h2, _, h4⟩ := settle_path_error_state env p store e hfresh hpath
  exact ⟨h1, h2, h4⟩

/-- C8: on the relayed path, `settle` (i) never relays an intent without a
designated fee-payer — `sendRelayedV3` rejects it outright, (ii) requires
protocol version at least 2, failing the settlement otherwise, and (iii)
fails with the relayer-mismatch error when the declared fee-payer differs
from the one resolved for the sender, with no broadcast performed and the
record transitioned to `failed`. -/
theorem settle_relayed_guards (env : SettleEnv) (p : X402Payload) (store : Store)
    (rel expected : String)
    (hfresh : ∀ r, store (env.calcId p.signature) = some r → r.status = SettlementStatus.failed)
    (hcfg : env.relayerConfigured = true)
    (hrel : p.relayer = some rel) :
    (∀ (env2 : SettleEnv) (p2 : X402Payload), env2.relayerConfigured = true →
        p2.relayer = none →
        sendRelayedV3 env2 p2
          = (Except.error ("Relayed V3 requires payload.relayer to be set by the sender before signing."), 0))
    ∧ (p.version < 2 →
        (settle env p store).result
            = Except.error ("Settlement failed: Relayed V3 requires transaction version >= 2.")
        ∧ (settle env p store).sends = 0
        ∧ ((applyOps store (settle env p store).ops) (env.calcId p.signature)).map
            SettlementRecord.status = some SettlementStatus.failed)
    ∧ (2 ≤ p.version → env.resolveRelayer = Except.ok expected → rel ≠ expected →
        (settle env p store).result
            = Except.error ("Settlement failed: Invalid relayer address. Expected "
                ++ expected ++ " for sender's shard.")
        ∧ (settle env p store).sends = 0
        ∧ ((applyOps store (settle env p store).ops) (env.calcId p.signature)).map
            SettlementRecord.status = some SettlementStatus.failed) := by
  have hdisp : (if env.relayerConfigured && p.relayer.isSome then sendRelayedV3 env p
                else sendDirect env) = sendRelayedV3 env p := by
    simp [hcfg, hrel]
  refine ⟨?_, ?_, ?_⟩
  · intro env2 p2 hcfg2 hrel2
    simp [sendRelayedV3, hcfg2, hrel2]
  · intro hv
    have hsr : sendRelayedV3 env p
        = (Except.error ("Relayed V3 requires transaction version >= 2."), 0) := by
      simp [sendRelayedV3, hcfg, hrel, hv]
    have hpath : (if env.relayerConfigured && p.relayer.isSome then sendRelayedV3 env p
                  else sendDirect env).1
        = Except.error ("Relayed V3 requires transaction version >= 2.") := by
      rw [hdisp, hsr]
    obtain ⟨h1, _, h3, h4⟩ := settle_path_error_state env p store _ hfresh hpath
    refine ⟨h1, ?_, h4⟩
    rw [h3, hdisp, hsr]
  · intro hv hres hne
    have hsr : sendRelayedV3 env p
        = (Except.error ("Invalid relayer address. Expected " ++ expected
            ++ " for sender's shard."), 0) := by
      simp [sendRelayedV3, hcfg, hrel, Nat.not_lt.mpr hv, hres, hne]
    have hpath : (if env.relayerConfigured && p.relayer.isSome then sendRelayedV3 env p
                  else sendDirect env).1
        = Except.error ("Invalid relayer address. Expected " ++ expected
            ++ " for sender's shard.") := by
      rw [hdisp, hsr]
    obtain ⟨h1, _, h3, h4⟩ := settle_path_error_state env p store _ hfresh hpath
    refine ⟨h1, ?_, h4⟩
    rw [h3, hdisp, hsr]

/-- Concrete material for the C4 counterexample: an intent settled twice,
first with a broadcast failure, then with a successful broadcast. -/
def samplePayload : X402Payload :=
  { nonce := 7, value := 1000000, receiver := "erd1bob", sender := "erd1alice",
    gasPrice := 1000000000, gasLimit := 50000, data := none, chainID := "D",
    version := 1, options := 0, signature := "aabbcc" }

def envSendFails : SettleEnv :=
  { calcId := fun s => s ++ "-id", now := 100, relayerConfigured := false,
    resolveRelayer := Except.error ("unused"), sendOutcome := Except.error ("network down") }

def envSendOk : SettleEnv := { envSendFails with sendOutcome := Except.ok ("txhash-2") }

def emptyStore : Store := fun _ => none

def storeAfterFail : Store :=
  applyOps emptyStore (settle envSendFails samplePayload emptyStore).ops

/-- C4 counterexample: after a broadcast failure the record is `failed`, yet a
later `settle` with the same signed intent overwrites it with a fresh
`pending` record (its first storage call) and completes it — the record
transitions out of the `failed` terminal state and transitions more than
once. -/
theorem settle_failed_not_terminal_cex :
    (storeAfterFail ("aabbcc-id")).map SettlementRecord.status = some SettlementStatus.failed
    ∧ (settle envSendOk samplePayload storeAfterFail).ops.head?
        = some (StoreOp.save (pendingRecord envSendOk samplePayload))
    ∧ (pendingRecord envSendOk samplePayload).status = SettlementStatus.pending
    ∧ ((applyOps storeAfterFail (settle envSendOk samplePayload storeAfterFail).ops)
        ("aabbcc-id")).map SettlementRecord.status = some SettlementStatus.completed
    ∧ (settle envSendOk samplePayload storeAfterFail).sends = 1 := by
  refine ⟨rfl, rfl, rfl, rfl, rfl⟩

/-- C4 (amended): per identifier, a `completed` record is terminal — `settle`
neither writes nor broadcasts again; a `pending` record blocks with no write;
and an invocation that proceeds past the idempotency check (no record, or a
`failed` record) leaves the identifier `completed` with a hash on success or
`failed` on error, never resting in `pending`.  A `failed` record, however,
is not terminal: the next `settle` with the same intent starts by overwriting
it with a fresh `pending` record and retries the broadcast. -/
theorem settle_lifecycle (env : SettleEnv) (p : X402Payload) (store : Store) :
    (∀ r, store (env.calcId p.signature) = some r → r.status = SettlementStatus.completed →
      (settle env p store).ops = [] ∧ (settle env p store).sends = 0)
    ∧ (∀ r, store (env.calcId p.signature) = some r → r.status = SettlementStatus.pending →
      (settle env p store).ops = [] ∧ (settle env p store).sends = 0)
    ∧ ((∀ r, store (env.calcId p.signature) = some r → r.status = SettlementStatus.failed) →
      (settle env p store).ops.head? = some (StoreOp.save (pendingRecord env p))
      ∧ ((((applyOps store (settle env p store).ops) (env.calcId p.signature)).map
            SettlementRecord.status = some SettlementStatus.completed
          ∧ ∃ h, (settle env p store).result = Except.ok { success := true, txHash := some h })
        ∨ (((applyOps store (settle env p store).ops) (env.calcId p.signature)).map
            SettlementRecord.status = some SettlementStatus.failed
          ∧ ∃ e, (settle env p store).result = Except.error e))) := by
  refine ⟨?_, ?_, ?_⟩
  · intro r hget hc
    rw [settle_of_completed env p store r hget hc]
    exact ⟨rfl, rfl⟩
  · intro r hget hp
    rw [settle_of_pending env p store r hget hp]
    exact ⟨rfl, rfl⟩
  · intro hfresh
    have hb : settle env p store = settleBroadcast env p := by
      cases hs : store (env.calcId p.signature) with
      | none => exact settle_of_none env p store hs
      | some r => exact settle_of_failed env p store r hs (hfresh r hs)
    cases hpath : (if env.relayerConfigured && p.relayer.isSome then sendRelayedV3 env p
                   else sendDirect env).1 with
    | ok h0 =>
      rw [hb, settleBroadcast_of_ok env p h0 hpath]
      refine ⟨rfl, Or.inl ⟨?_, h0, rfl⟩⟩
      rw [applyOps_pending_then_completed env p store h0]
      rfl
    | error e =>
      rw [hb, settleBroadcast_of_error env p e hpath]
      refine ⟨rfl, Or.inr ⟨?_, "Settlement failed: " ++ e, rfl⟩⟩
      rw [applyOps_pending_then_failed env p store]
      rfl

/-! ## Helper lemmas on `verify` -/

theorem verify_of_timeGate_ok (env : VerifyEnv) (p : X402Payload) (req : X402Requirements)
    (h : timeGate env.now p = Except.ok ()) :
    verify env p req = verifyFromSignature env p req := by
  simp [verify, h]

theorem timeGate_after_false (now : Nat) (p : X402Payload)
    (hA : ∀ va, p.validAfter = some va → va ≠ 0 → va ≤ now) :
    (jsTruthyNat p.validAfter && decide (now < p.validAfter.getD 0)) = false := by
  cases hva : p.validAfter with
  | none => simp [jsTruthyNat]
  | some va =>
    by_cases h0 : va = 0
    · simp [jsTruthyNat, h0]
    · simp [jsTruthyNat, h0, Nat.not_lt.mpr (hA va hva h0)]

theorem timeGate_before_false (now : Nat) (p : X402Payload)
    (hB : ∀ vb, p.validBefore = some vb → vb ≠ 0 → now ≤ vb) :
    (jsTruthyNat p.validBefore && decide (p.validBefore.getD 0 < now)) = false := by
  cases hvb : p.validBefore with
  | none => simp [jsTruthyNat]
  | some vb =>
    by_cases h0 : vb = 0
    · simp [jsTruthyNat, h0]
    · simp [jsTruthyNat, h0, Nat.not_lt.mpr (hB vb hvb h0)]

/-! ## C5 -/

def envC5 : VerifyEnv := { now := 1, sigValid := true, addrFromHex := fun _ => none }

def payC5 : X402Payload :=
  { nonce := 0, value := 5, receiver := "erd1carol", sender := "erd1alice",
    gasPrice := 1, gasLimit := 1, chainID := "D", version := 1, options := 0,
    signature := "00", validBefore := some 0 }

def reqC5 : X402Requirements :=
  { payTo := "erd1carol", amount := 5, asset := "EGLD", network := "multiversx:D" }

/-- C5 counterexample: the current time 1 is strictly after `validBefore = 0`,
yet `verify` succeeds — a present-but-zero `validBefore` is falsy in the
source's truthiness guard, so the Expired check is skipped. -/
theorem verify_expired_zero_cex :
    payC5.validBefore = some 0 ∧ envC5.now = 1
    ∧ verify envC5 payC5 reqC5 = Except.ok { isValid := true, payer := "erd1alice" } := by
  refine ⟨rfl, rfl, rfl⟩

/-- C5 (amended): `verify` fails with NotYetValid when `validAfter` is
present, nonzero and strictly after the current time; otherwise it fails with
Expired when `validBefore` is present, nonzero and strictly before the
current time; absent — or zero — temporal fields impose no constraint, and
when neither gate fires verification proceeds to the signature check. -/
theorem verify_time_gate (env : VerifyEnv) (p : X402Payload) (req : X402Requirements) :
    (∀ va, p.validAfter = some va → va ≠ 0 → env.now < va →
      verify env p req = Except.error VerifyError.notYetValid)
    ∧ (∀ vb, p.validBefore = some vb → vb ≠ 0 → vb < env.now →
        (∀ va, p.validAfter = some va → va ≠ 0 → va ≤ env.now) →
        verify env p req = Except.error VerifyError.expired)
    ∧ ((∀ va, p.validAfter = some va → va ≠ 0 → va ≤ env.now) →
       (∀ vb, p.validBefore = some vb → vb ≠ 0 → env.now ≤ vb) →
       verify env p req = verifyFromSignature env p req) := by
  refine ⟨?_, ?_, ?_⟩
  · intro va hva h0 hlt
    simp [verify, timeGate, hva, jsTruthyNat, h0, hlt]
  · intro vb hvb h0 hlt hA
    have c1 := timeGate_after_false env.now p hA
    have ht : timeGate env.now p = Except.error VerifyError.expired := by
      unfold timeGate
      rw [c1]
      simp [hvb, jsTruthyNat, h0, hlt]
    simp [verify, ht]
  · intro hA hB
    have c1 := timeGate_after_false env.now p hA
    have c2 := timeGate_before_false env.now p hB
    have : timeGate env.now p = Except.ok () := by
      simp [timeGate, c1, c2]
    exact verify_of_timeGate_ok env p req this

/-! ## C6 -/

theorem verifyFromSignature_token (env : VerifyEnv) (p : X402Payload) (req : X402Requirements)
    (hsig : env.sigValid = true) (hesdt : isEsdtData p.data = true)
    (hasset : req.asset ≠ "EGLD") (hsim : env.simulation = none) :
    verifyFromSignature env p req =
      (match verifyESDT env p req with
       | Except.error e => Except.error e
       | Except.ok _ => Except.ok { isValid := true, payer := p.sender }) := by
  simp [verifyFromSignature, hsig, hesdt, hasset, hsim]

theorem verifyESDT_eval (env : VerifyEnv) (p : X402Payload) (req : X402Requirements)
    (d : String) (rcv : String) (amt : Nat)
    (hd : p.data = some d) (hstart : startsWithStr d esdtOpcode = true)
    (hlen : 6 ≤ (jsSplit d ('@')).length)
    (haddr : env.addrFromHex ((jsSplit d ('@')).getD 1 ("")) = some rcv)
    (hamt : hexToNat ((jsSplit d ('@')).getD 5 ("")) = some amt) :
    verifyESDT env p req =
      (if rcv ≠ req.payTo then Except.error VerifyError.esdtReceiverMismatch
       else if hexToString ((jsSplit d ('@')).getD 3 ("")) ≠ req.asset then
         Except.error VerifyError.esdtTokenMismatch
       else if amt < req.amount then Except.error VerifyError.insufficientESDT
       else Except.ok ()) := by
  have hlen' : ¬ (jsSplit d ('@')).length < 6 := Nat.not_lt.mpr hlen
  have haddr2 := haddr
  have hamt2 := hamt
  simp only [List.getD, List.get?_eq_getElem?] at haddr2 hamt2
  simp [verifyESDT, hd, isEsdtData, hstart, hlen', haddr2, hamt2, List.getD]

def envC6 : VerifyEnv := { now := 50, sigValid := true, addrFromHex := fun _ => none }

def payC6 : X402Payload :=
  { nonce := 3, value := 0, receiver := "erd1bob", sender := "erd1alice",
    gasPrice := 1, gasLimit := 1, data := some "hello", chainID := "D",
    version := 1, options := 0, signature := "01" }

def reqC6 : X402Requirements :=
  { payTo := "erd1carol", amount := 5, asset := "TOK-123456", network := "multiversx:D" }

/-- C6 counterexample: a token requirement and an instruction payload that
does not begin with the transfer opcode, with a receiver differing from the
recipient: `verify` reports ReceiverMismatch, not NotATokenTransfer — the
direct-receiver gate precedes the token-parsing gate. -/
theorem verify_token_opcode_cex :
    reqC6.asset ≠ "EGLD" ∧ isEsdtData payC6.data = false
    ∧ verify envC6 payC6 reqC6 = Except.error VerifyError.receiverMismatch := by
  refine ⟨by decide, rfl, rfl⟩

/-- C6 (amended): for a token (non-native) requirement, once the temporal and
signature gates pass and no dry-run is requested: a payload that does not
begin with the transfer opcode fails with NotATokenTransfer when the direct
receiver equals the recipient, and with ReceiverMismatch when it differs; a
transfer payload with fewer than 6 fields fails with MalformedTransferData;
otherwise, when the receiver and amount fields decode, verification succeeds
iff the decoded receiver equals the recipient, the decoded token identifier
equals the asset, and the amount is at least the required minimum — and an
amount below the minimum fails with InsufficientTokenAmount. -/
theorem verify_token_transfer (env : VerifyEnv) (p : X402Payload) (req : X402Requirements)
    (htime : timeGate env.now p = Except.ok ())
    (hsig : env.sigValid = true)
    (hsim : env.simulation = none)
    (hasset : req.asset ≠ "EGLD") :
    (isEsdtData p.data = false → p.receiver = req.payTo →
      verify env p req = Except.error VerifyError.notESDT)
    ∧ (isEsdtData p.data = false → p.receiver ≠ req.payTo →
      verify env p req = Except.error VerifyError.receiverMismatch)
    ∧ (∀ d, p.data = some d → startsWithStr d esdtOpcode = true →
        (jsSplit d ('@')).length < 6 →
        verify env p req = Except.error VerifyError.malformedESDT)
    ∧ (∀ d rcv amt, p.data = some d → startsWithStr d esdtOpcode = true →
        6 ≤ (jsSplit d ('@')).length →
        env.addrFromHex ((jsSplit d ('@')).getD 1 ("")) = some rcv →
        hexToNat ((jsSplit d ('@')).getD 5 ("")) = some amt →
        ((verify env p req = Except.ok { isValid := true, payer := p.sender } ↔
            rcv = req.payTo
            ∧ hexToString ((jsSplit d ('@')).getD 3 ("")) = req.asset
            ∧ req.amount ≤ amt)
          ∧ (rcv = req.payTo → hexToString ((jsSplit d ('@')).getD 3 ("")) = req.asset →
              amt < req.amount →
              verify env p req = Except.error VerifyError.insufficientESDT))) := by
  have hv : verify env p req = verifyFromSignature env p req :=
    verify_of_timeGate_ok env p req htime
  refine ⟨?_, ?_, ?_, ?_⟩
  · intro hesdt hrcv
    rw [hv]
    simp [verifyFromSignature, hsig, hesdt, hrcv, hasset, verifyESDT]
  · intro hesdt hrcv
    rw [hv]
    simp [verifyFromSignature, hsig, hesdt, hrcv]
  · intro d hd hstart hlen
    have hesdt : isEsdtData p.data = true := by simp [isEsdtData, hd, hstart]
    rw [hv, verifyFromSignature_token env p req hsig hesdt hasset hsim]
    simp [verifyESDT, hd, isEsdtData, hstart, hlen]
  · intro d rcv amt hd hstart hlen haddr hamt
    have hesdt : isEsdtData p.data = true := by simp [isEsdtData, hd, hstart]
    rw [hv, verifyFromSignature_token env p req hsig hesdt hasset hsim,
        verifyESDT_eval env p req d rcv amt hd hstart hlen haddr hamt]
    constructor
    · split_ifs with h1 h2 h3 <;> simp_all [Nat.not_lt]
    · intro h1 h2 h3
      simp_all

/-! ## C10 -/

/-- C10: with a native-coin requirement and an instruction payload that
begins with the token-transfer opcode, `verify` never compares the intent's
direct receiver to the requirement's recipient — its result does not depend
on the recipient at all — and when the temporal, signature and native-amount
gates pass (and no dry-run is requested) it returns valid, even though the
receiver may differ from the recipient. -/
theorem verify_native_multiesdt_skips_receiver (env : VerifyEnv) (p : X402Payload)
    (req : X402Requirements)
    (hasset : req.asset = "EGLD")
    (hdata : isEsdtData p.data = true) :
    (∀ payTo1 payTo2,
      verify env p { req with payTo := payTo1 } = verify env p { req with payTo := payTo2 })
    ∧ (timeGate env.now p = Except.ok () → env.sigValid = true → env.simulation = none →
      req.amount ≤ p.value →
      verify env p req = Except.ok { isValid := true, payer := p.sender }) := by
  constructor
  · intro x y
    unfold verify
    cases timeGate env.now p with
    | error e => rfl
    | ok u =>
      simp [verifyFromSignature, hdata, hasset]
  · intro htime hsig hsim hamt
    rw [verify_of_timeGate_ok env p req htime]
    simp [verifyFromSignature, hsig, hdata, hasset, hsim, Nat.not_lt.mpr hamt]

/-! ## C7 -/

/-- The success criterion exactly as the claim words it (for comparison with
`parseSimulationResult`): success iff one of the enumerated field paths —
`status.status`, `raw.status`, `raw.{receiverShard,senderShard}.status`,
`result.status`, `result.{receiverShard,senderShard}.status`, or the nested
`execution.result` — equals the literal string success marker. -/
def claimAnyPathSuccess (r : SimResponse) : Bool :=
  r.status.bind SimStatusObj.status == some ("success")
  || r.raw.bind SimRaw.status == some ("success")
  || (r.raw.bind SimRaw.receiverShard).bind SimStatusObj.status == some ("success")
  || (r.raw.bind SimRaw.senderShard).bind SimStatusObj.status == some ("success")
  || r.result.bind SimResult.status == some ("success")
  || (r.result.bind SimResult.receiverShard).bind SimStatusObj.status == some ("success")
  || (r.result.bind SimResult.senderShard).bind SimStatusObj.status == some ("success")
  || (r.execution <|> (r.result.bind SimResult.execution)).bind SimExecution.result
      == some ("success")

def simC7cex : SimResponse :=
  { raw := some { senderShard := some { status := some ("success") } } }

/-- C7 counterexample: a response whose only populated enumerated path is
`raw.senderShard.status = "success"` satisfies the claim's any-path success
criterion, yet `parseSimulationResult` reports failure (the shard-level rules
require the receiver shard's status to be the success literal). -/
theorem parse_simulation_any_path_cex :
    claimAnyPathSuccess simC7cex = true
    ∧ parseSimulationResult simC7cex = { success := false, errorMessage := "Unknown error" } := by
  refine ⟨rfl, rfl⟩

def simScenarioCrossShard : SimResponse :=
  { result := some { receiverShard := some { status := some ("success") },
                     senderShard := some { status := some ("success") } } }

def simScenarioUnknown : SimResponse := {}

/-- C7 (amended): `parseSimulationResult` succeeds iff `status.status`,
`raw.status`, `result.status` or the nested `execution.result` equals the
success literal, or a receiver-shard status (under `raw` or under `result`)
equals it while the corresponding sender-shard status is absent, empty or
also the success literal — a sender-shard success alone does not count.  The
cross-shard scenario response is success; a response carrying none of the
recognized fields is failure with the generic message. -/
theorem parse_simulation_success_iff :
    (∀ r : SimResponse,
      (parseSimulationResult r).success = true ↔
        (r.status.bind SimStatusObj.status = some "success"
        ∨ r.raw.bind SimRaw.status = some "success"
        ∨ (r.execution <|> (r.result.bind SimResult.execution)).bind SimExecution.result
            = some "success"
        ∨ ((r.raw.bind SimRaw.receiverShard).bind SimStatusObj.status = some "success"
            ∧ (jsFalsyStr ((r.raw.bind SimRaw.senderShard).bind SimStatusObj.status) = true
               ∨ (r.raw.bind SimRaw.senderShard).bind SimStatusObj.status = some "success"))
        ∨ r.result.bind SimResult.status = some "success"
        ∨ ((r.result.bind SimResult.receiverShard).bind SimStatusObj.status = some "success"
            ∧ (jsFalsyStr ((r.result.bind SimResult.senderShard).bind SimStatusObj.status) = true
               ∨ (r.result.bind SimResult.senderShard).bind SimStatusObj.status = some "success"))))
    ∧ parseSimulationResult simScenarioCrossShard = { success := true, errorMessage := "" }
    ∧ parseSimulationResult simScenarioUnknown
        = { success := false, errorMessage := "Unknown error" } := by
  refine ⟨?_, rfl, rfl⟩
  intro r
  simp only [parseSimulationResult]
  split_ifs with h1 h2 h3 h4 h5 h6 <;>
    simp_all [Bool.and_eq_true, Bool.or_eq_true, beq_iff_eq]

/-! ## C9 -/

/-- C9: the shard index of an address is its public key's last byte masked to
2 bits, folded to a 1-bit mask when the 2-bit value exceeds 2; resolution
uses the signer configured for the payer's shard when the per-shard map has
that entry, falls back to the single configured signer, and fails with the
no-relayer error when the map is empty and no single signer exists. -/
theorem relayer_resolution (m : RelayerManager) (u : UserAddr) :
    (∀ b : Nat, getShard b = if b % 4 ≤ 2 then b % 4 else b % 2)
    ∧ (∀ s, m.signers ≠ [] → lookupShard m.signers (getShard u.pubKeyLast) = some s →
        getSignerForUser m u = Except.ok s)
    ∧ (m.signers = [] → ∀ s, m.singleSigner = some s → getSignerForUser m u = Except.ok s)
    ∧ (m.signers = [] → m.singleSigner = none →
        getSignerForUser m u = Except.error ("No relayer configured for user " ++ u.bech32)) := by
  refine ⟨?_, ?_, ?_, ?_⟩
  · intro b
    have h3 : b &&& 3 = b % 4 := by
      have := Nat.and_pow_two_sub_one_eq_mod b 2
      norm_num at this
      exact this
    have h1 : b &&& 1 = b % 2 := Nat.and_one_is_mod b
    by_cases hb : b % 4 ≤ 2
    · simp [getShard, h3, h1, hb, Nat.not_lt.mpr hb]
    · simp [getShard, h3, h1, hb, Nat.lt_of_not_le hb]
  · intro s hne hlook
    have hlen : 0 < m.signers.length := List.length_pos.mpr hne
    simp [getSignerForUser, hlen, hlook]
  · intro hempty s hs
    simp [getSignerForUser, hempty, hs, lookupShard]
  · intro hempty hnone
    simp [getSignerForUser, hempty, hnone, lookupShard]

/-! ## Concrete witnesses -/

def recCompleted : SettlementRecord :=
  { id := "aabbcc-id", signature := "aabbcc", payer := "erd1alice",
    status := SettlementStatus.completed, txHash := some ("tx0"),
    createdAt := 50, amount := 1000000, token := "EGLD" }

def storeCompleted : Store := fun i => if i = "aabbcc-id" then some recCompleted else none

def recPending : SettlementRecord :=
  { recCompleted with status := SettlementStatus.pending, txHash := none }

def storePending : Store := fun i => if i = "aabbcc-id" then some recPending else none

/-- C1 witness. -/
theorem settle_completed_idempotent_witness :
    (settle envSendOk samplePayload storeCompleted).result
        = Except.ok { success := true, txHash := some ("tx0") }
    ∧ (settle envSendOk samplePayload storeCompleted).sends = 0 := by
  have h := settle_completed_idempotent envSendOk samplePayload storeCompleted recCompleted rfl rfl
  exact ⟨h.1.1, h.1.2.1⟩

/-- C2 witness. -/
theorem settle_pending_rejected_witness :
    (settle envSendOk samplePayload storePending).result
        = Except.error ("Settlement already in progress")
    ∧ (settle envSendOk samplePayload storePending).ops = []
    ∧ (settle envSendOk samplePayload storePending).sends = 0 :=
  settle_pending_rejected envSendOk samplePayload storePending recPending rfl rfl

/-- C3 witness. -/
theorem settle_error_marks_failed_witness :
    (settle envSendFails samplePayload emptyStore).result
        = Except.error ("Settlement failed: network down")
    ∧ ((applyOps emptyStore (settle envSendFails samplePayload emptyStore).ops)
        ("aabbcc-id")).map SettlementRecord.status = some SettlementStatus.failed := by
  have h := settle_error_marks_failed envSendFails samplePayload emptyStore
    ("network down") (fun _ hr => nomatch hr) rfl
  exact ⟨h.1, h.2.2⟩

/-- C4 witness (amended theorem). -/
theorem settle_lifecycle_witness :
    (settle envSendOk samplePayload emptyStore).ops.head?
        = some (StoreOp.save (pendingRecord envSendOk samplePayload)) :=
  ((settle_lifecycle envSendOk samplePayload emptyStore).2.2 (fun _ hr => nomatch hr)).1

def envC8 : SettleEnv :=
  { calcId := fun s => s ++ "-id", now := 100, relayerConfigured := true,
    resolveRelayer := Except.ok ("erd1relayerA"), sendOutcome := Except.ok ("never") }

def payC8 : X402Payload :=
  { samplePayload with relayer := some ("erd1relayerB"), version := 2 }

/-- C8 witness. -/
theorem settle_relayed_guards_witness :
    (settle envC8 payC8 emptyStore).result
        = Except.error
            ("Settlement failed: Invalid relayer address. Expected erd1relayerA for sender's shard.")
    ∧ (settle envC8 payC8 emptyStore).sends = 0
    ∧ ((applyOps emptyStore (settle envC8 payC8 emptyStore).ops) ("aabbcc-id")).map
        SettlementRecord.status = some SettlementStatus.failed := by
  have h := settle_relayed_guards envC8 payC8 emptyStore ("erd1relayerB") ("erd1relayerA")
    (fun _ hr => nomatch hr) rfl rfl
  exact h.2.2 (by decide) rfl (by decide)

def envC5w : VerifyEnv := { now := 5, sigValid := true, addrFromHex := fun _ => none }

def payC5w : X402Payload := { payC5 with validAfter := some 10, validBefore := none }

/-- C5 witness (amended theorem). -/
theorem verify_time_gate_witness :
    verify envC5w payC5w reqC5 = Except.error VerifyError.notYetValid :=
  (verify_time_gate envC5w payC5w reqC5).1 10 rfl (by decide) (by decide)

def envC6w : VerifyEnv :=
  { now := 50, sigValid := true,
    addrFromHex := fun h => if h = "aabb" then some ("erd1carol") else none }

def payC6w : X402Payload :=
  { nonce := 4, value := 0, receiver := "erd1ignored", sender := "erd1alice",
    gasPrice := 1, gasLimit := 1,
    data := some ("MultiESDTNFTTransfer@aabb@01@544553542d61626364@00@1388"),
    chainID := "D", version := 1, options := 0, signature := "02" }

def payC6x : X402Payload :=
  { payC6w with
    data := some ("MultiESDTNFTTransfer@aabb@01@544553542d61626364@00@03E8") }

def reqC6w : X402Requirements :=
  { payTo := "erd1carol", amount := 5000, asset := "TEST-abcd", network := "multiversx:D" }

/-- C6 witness (amended theorem): the spec scenario — amount hex 1388 (5000)
satisfies a 5000 minimum, amount hex 03E8 (1000) fails with
InsufficientTokenAmount. -/
theorem verify_token_transfer_witness :
    verify envC6w payC6w reqC6w = Except.ok { isValid := true, payer := "erd1alice" }
    ∧ verify envC6w payC6x reqC6w = Except.error VerifyError.insufficientESDT := by
  constructor
  · have h := verify_token_transfer envC6w payC6w reqC6w rfl rfl rfl (by decide)
    have h4 := h.2.2.2 ("MultiESDTNFTTransfer@aabb@01@544553542d61626364@00@1388")
      ("erd1carol") 5000 rfl rfl (by decide) rfl rfl
    exact h4.1.mpr ⟨rfl, rfl, by decide⟩
  · have h := verify_token_transfer envC6w payC6x reqC6w rfl rfl rfl (by decide)
    have h4 := h.2.2.2 ("MultiESDTNFTTransfer@aabb@01@544553542d61626364@00@03E8")
      ("erd1carol") 1000 rfl rfl (by decide) rfl rfl
    exact h4.2 rfl rfl (by decide)

def mgrC9 : RelayerManager := { signers := [(1, "erdShard1")] }

def userC9 : UserAddr := { bech32 := "erd1user", pubKeyLast := 5 }

/-- C9 witness. -/
theorem relayer_resolution_witness :
    getSignerForUser mgrC9 userC9 = Except.ok ("erdShard1") :=
  (relayer_resolution mgrC9 userC9).2.1 ("erdShard1") (by decide) (by decide)

def envC10 : VerifyEnv := { now := 50, sigValid := true, addrFromHex := fun _ => none }

def payC10 : X402Payload :=
  { nonce := 9, value := 10, receiver := "erd1bob", sender := "erd1alice",
    gasPrice := 1, gasLimit := 1, data := some ("MultiESDTNFTTransfer@00@01@00@00@00"),
    chainID := "D", version := 1, options := 0, signature := "03" }

def reqC10 : X402Requirements :=
  { payTo := "erd1carol", amount := 5, asset := "EGLD", network := "multiversx:D" }

/-- C10 witness: verification passes although the receiver differs from the
requirement's recipient. -/
theorem verify_native_multiesdt_skips_receiver_witness :
    verify envC10 payC10 reqC10 = Except.ok { isValid := true, payer := "erd1alice" }
    ∧ payC10.receiver ≠ reqC10.payTo :=
  ⟨(verify_native_multiesdt_skips_receiver envC10 payC10 reqC10 rfl rfl).2
      rfl rfl rfl (by decide),
   by decide⟩

end X402
